import Mathlib

/-!
Shallow embedding of the ERP Data Automation Dashboard
(src/main.py, src/ERP_Data_Extractor.py) in Lean 4, together with
theorems settling the specification claims about it.

Modelling conventions:
* pandas DataFrames become `DataFrame`: a list of column names plus a list
  of rows, each row an association list from column name to `Value`
  (string or rational number — the only value shapes the verified
  computations touch; monetary amounts and quantities are modelled as `Rat`).
* The module-level dict `latest_data` of main.py becomes `Store`.
  Python code accesses it only inside `with data_lock:` blocks, so each
  critical section is modelled as one atomic step.
* Disk state becomes `FS`, an association list from path to `Artifact`;
  a write prepends, a read is `List.lookup` (first entry wins).
* Fallible I/O is modelled with `Except`: report-writer file operations are
  numbered, and a run is parametrised by `failAt : Option Nat`, the index of
  the operation (if any) at which the injected I/O error is raised; the
  `.error` payload is the filesystem at the moment of the failure.
* Fetches (`ERPDataExtractor.get_*_data`) are external collaborators; a
  refresh cycle is parametrised by their four outcomes (`Except Unit DataFrame`).
-/

namespace ERP

/-- A cell value: the verified computations only inspect strings (status
columns) and numbers (amounts, quantities). -/
inductive Value where
  | str (s : String)
  | num (q : Rat)
deriving DecidableEq

/-- A row of a DataFrame: column name to value. -/
abbrev Row := List (String × Value)

/-- A pandas DataFrame: its column labels and its rows. -/
structure DataFrame where
  columns : List String
  rows : List Row
deriving DecidableEq

/-- `len(df)`. -/
def DataFrame.len (df : DataFrame) : Nat := df.rows.length

/-- Numeric view of a cell, as used by pandas column sums. -/
def Value.toRat : Value → Rat
  | .str _ => 0
  | .num q => q

/-- `len(df[df['status'] == s])`. -/
def DataFrame.countStatus (df : DataFrame) (s : String) : Nat :=
  df.rows.countP (fun r => decide (r.lookup "status" = some (Value.str s)))

/-- `len(df[df['status'].isin(ss)])`. -/
def DataFrame.countStatusIn (df : DataFrame) (ss : List String) : Nat :=
  df.rows.countP (fun r => ss.any (fun s => decide (r.lookup "status" = some (Value.str s))))

/-- `df[c].sum()` for a numeric column `c`. -/
def DataFrame.sumCol (df : DataFrame) (c : String) : Rat :=
  (df.rows.map (fun r => (((r.lookup c).getD (Value.num 0)).toRat))).sum

/-- One row of the Summary sheet built by `ReportGenerator._create_summary`
(src/ERP_Data_Extractor.py lines 415-453).  The source renders the
kind-specific aggregate as a formatted string; here the aggregate is the
underlying number, `none` standing for the string `N/A` (cell styling and
number formatting are rendering details outside the verified core). -/
structure SummaryRow where
  department : String
  totalRecords : Nat
  pending : Nat
  completed : Nat
  aggregateLabel : String
  aggregate : Option Rat
deriving DecidableEq, Inhabited

/-- Embeds `ReportGenerator._create_summary` (src/ERP_Data_Extractor.py
lines 415-453): one summary row per dataset kind, in source order. -/
def create_summary (purchase_df production_df packing_df shipment_df : DataFrame) :
    List SummaryRow :=
  [ { department := "Purchase"
    , totalRecords := purchase_df.len
    , pending := purchase_df.countStatus "Pending"
    , completed := purchase_df.countStatusIn ["Approved", "Delivered"]
    , aggregateLabel := "Total Value"
    , aggregate := if "amount" ∈ purchase_df.columns
        then some (purchase_df.sumCol "amount") else none }
  , { department := "Production"
    , totalRecords := production_df.len
    , pending := production_df.countStatus "Pending"
    , completed := production_df.countStatus "Completed"
    , aggregateLabel := "Total Quantity"
    , aggregate := if "quantity" ∈ production_df.columns
        then some (production_df.sumCol "quantity") else none }
  , { department := "Packing"
    , totalRecords := packing_df.len
    , pending := packing_df.countStatus "Pending"
    , completed := packing_df.countStatus "Completed"
    , aggregateLabel := "Total Packed"
    , aggregate := if "quantity" ∈ packing_df.columns
        then some (packing_df.sumCol "quantity") else none }
  , { department := "Shipment"
    , totalRecords := shipment_df.len
    , pending := shipment_df.countStatus "Pending"
    , completed := shipment_df.countStatus "Delivered"
    , aggregateLabel := "Total Shipped"
    , aggregate := if "quantity" ∈ shipment_df.columns
        then some (shipment_df.sumCol "quantity") else none } ]

/-- The module-level `latest_data` dict of src/main.py (lines 38-44):
the snapshot store.  `last_updated` is a capture time at second
granularity. -/
structure Store where
  purchase : Option DataFrame
  production : Option DataFrame
  packing : Option DataFrame
  shipment : Option DataFrame
  last_updated : Option Nat
deriving DecidableEq

/-- The initial value of `latest_data`: every key `None`. -/
def latest_data_init : Store :=
  { purchase := none, production := none, packing := none
  , shipment := none, last_updated := none }

/-- The JSON payload computed by the `/api/summary` handler `get_summary`
(src/main.py lines 138-168), field by field. -/
structure ApiSummary where
  purchase_total_orders : Nat
  purchase_total_amount : Rat
  purchase_pending : Nat
  production_total_units : Rat
  production_completed : Nat
  production_in_progress : Nat
  packing_total_packed : Rat
  packing_completed : Nat
  shipment_total_shipments : Nat
  shipment_dispatched : Nat
  shipment_pending : Nat
  last_updated : Nat
deriving DecidableEq

/-- Embeds the `/api/summary` handler `get_summary` (src/main.py lines
138-168).  `none` is the 404 `No data available` response taken when
`latest_data['last_updated']` is unset.  The handler then reads the four
datasets; states with `last_updated` set but a dataset missing are
unreachable (see `snapshot_all_or_none`), and on them the source would
raise, so the model also returns no payload there. -/
def get_summary (s : Store) : Option ApiSummary :=
  match s with
  | ⟨some p, some prod, some pack, some ship, some t⟩ => some
    { purchase_total_orders := p.len
    , purchase_total_amount := p.sumCol "amount"
    , purchase_pending := p.countStatus "Pending"
    , production_total_units := prod.sumCol "quantity"
    , production_completed := prod.countStatus "Completed"
    , production_in_progress := prod.countStatus "In Progress"
    , packing_total_packed := pack.sumCol "quantity"
    , packing_completed := pack.countStatus "Completed"
    , shipment_total_shipments := ship.len
    , shipment_dispatched := ship.countStatus "Dispatched"
    , shipment_pending := ship.countStatus "Pending"
    , last_updated := t }
  | _ => none

/-- Response of the `/api/department/<dept_name>` handler. -/
inductive DeptResponse where
  | noData                              -- 404, error No data available
  | invalidDepartment                   -- 400, error Invalid department
  | payload (df : Option DataFrame)    -- 200, the department rows
deriving DecidableEq

/-- The `data_map` dict built inside `get_department_data`
(src/main.py lines 177-182). -/
def data_map (s : Store) : List (String × Option DataFrame) :=
  [ ("purchase", s.purchase), ("production", s.production)
  , ("packing", s.packing), ("shipment", s.shipment) ]

/-- Embeds the `/api/department/<dept_name>` handler `get_department_data`
(src/main.py lines 170-191).  The handler only reads `latest_data`; the
returned second component is the store after the call. -/
def get_department_data (s : Store) (dept_name : String) : DeptResponse × Store :=
  if s.last_updated = none then (DeptResponse.noData, s)
  else
    match (data_map s).lookup dept_name with
    | none => (DeptResponse.invalidDepartment, s)
    | some df => (DeptResponse.payload df, s)

/-! ## Report writer: filesystem model (src/ERP_Data_Extractor.py lines 278-506) -/

/-- A report artifact's content: the serialized data it holds.  The
workbook holds the four sheets plus the Summary sheet; a CSV holds one
dataset.  Cell styling and number formatting are rendering details of the
excluded serialization backend; two artifacts are byte-identical iff their
data content is equal. -/
inductive Artifact where
  | xlsx (purchase production packing shipment : DataFrame) (summary : List SummaryRow)
  | csv (df : DataFrame)
deriving DecidableEq

abbrev FilePath := String

/-- Disk state: newest write first; a read is the first entry for the path. -/
abbrev FS := List (FilePath × Artifact)

/-- Writing a file: the new content shadows any previous content at the path. -/
def setFile (fs : FS) (p : FilePath) (a : Artifact) : FS := (p, a) :: fs

/-- One numbered file operation of a report-writer run.  `failAt` is the
index of the operation at which this run's injected I/O error (disk full,
permission denied, ...) is raised; a failing operation leaves the disk
unchanged and raises, carrying the disk state at that moment. -/
def writeOp (failAt : Option Nat) (idx : Nat) (p : FilePath) (a : Artifact) (fs : FS) :
    Except FS FS :=
  if failAt = some idx then .error fs else .ok (setFile fs p a)

/-- `reports/daily_report_{timestamp}.xlsx`. -/
def xlsxTimestampedPath (ts : String) : FilePath :=
  "reports/daily_report_" ++ ts ++ ".xlsx"

/-- `reports/daily_report.xlsx`, the fixed latest workbook path. -/
def xlsxLatestPath : FilePath := "reports/daily_report.xlsx"

/-- `reports/csv/{name}_{timestamp}.csv`. -/
def csvTimestampedPath (name ts : String) : FilePath :=
  "reports/csv/" ++ name ++ "_" ++ ts ++ ".csv"

/-- `reports/csv/{name}.csv`, the fixed latest path for a CSV export. -/
def csvLatestPath (name : String) : FilePath :=
  "reports/csv/" ++ name ++ ".csv"

/-- Embeds `ReportGenerator.generate_excel_reports` (src/ERP_Data_Extractor.py
lines 351-413): write the workbook under its timestamped name (operation 0:
the `pd.ExcelWriter` block, which saves the file when the block exits), then
`shutil.copy` it to the fixed latest name (operation 1) — the copy duplicates
the bytes of the just-written timestamped file, it does not re-serialize.
Any failure is re-raised to the caller. -/
def generate_excel_reports (failAt : Option Nat) (ts : String)
    (purchase_df production_df packing_df shipment_df : DataFrame) (fs : FS) :
    Except FS FS :=
  let wb := Artifact.xlsx purchase_df production_df packing_df shipment_df
    (create_summary purchase_df production_df packing_df shipment_df)
  match writeOp failAt 0 (xlsxTimestampedPath ts) wb fs with
  | .error e => .error e
  | .ok fs1 =>
    match fs1.lookup (xlsxTimestampedPath ts) with
    | some content => writeOp failAt 1 xlsxLatestPath content fs1
    | none => .error fs1    -- unreachable: operation 0 just wrote that path

/-- The `datasets` dict of `generate_csv_exports` (src/ERP_Data_Extractor.py
lines 488-493), in source order. -/
def csvDatasets (purchase_df production_df packing_df shipment_df : DataFrame) :
    List (String × DataFrame) :=
  [ ("purchase_data", purchase_df), ("production_data", production_df)
  , ("packing_data", packing_df), ("shipment_data", shipment_df) ]

/-- The `for name, df in datasets.items()` loop of `generate_csv_exports`
(src/ERP_Data_Extractor.py lines 495-502): per dataset, write the
timestamped CSV, then serialize the same dataset again to the fixed latest
name (`df.to_csv(latest_filename)` — a second serialization, not a copy).
Operations are numbered `idx`, `idx+1`, ... -/
def csvExportLoop (failAt : Option Nat) (ts : String) :
    Nat → List (String × DataFrame) → FS → Except FS FS
  | _, [], fs => .ok fs
  | idx, (name, df) :: rest, fs =>
    match writeOp failAt idx (csvTimestampedPath name ts) (Artifact.csv df) fs with
    | .error e => .error e
    | .ok fs1 =>
      match writeOp failAt (idx + 1) (csvLatestPath name) (Artifact.csv df) fs1 with
      | .error e => .error e
      | .ok fs2 => csvExportLoop failAt ts (idx + 2) rest fs2

/-- Embeds `ReportGenerator.generate_csv_exports` (src/ERP_Data_Extractor.py
lines 466-506).  Its file operations are numbered from 2, continuing the
numbering of `generate_excel_reports` so that one `failAt` index addresses
any operation of a whole report-writing pass.  Any failure is re-raised. -/
def generate_csv_exports (failAt : Option Nat) (ts : String)
    (purchase_df production_df packing_df shipment_df : DataFrame) (fs : FS) :
    Except FS FS :=
  csvExportLoop failAt ts 2
    (csvDatasets purchase_df production_df packing_df shipment_df) fs

/-- The report-writing part of one refresh cycle, as called by
`fetch_and_process_data` (src/main.py lines 77-82): Excel first, then the
CSV exports; an exception from either aborts the pass. -/
def write_reports (failAt : Option Nat) (ts : String)
    (purchase_df production_df packing_df shipment_df : DataFrame) (fs : FS) :
    Except FS FS :=
  match generate_excel_reports failAt ts
      purchase_df production_df packing_df shipment_df fs with
  | .error e => .error e
  | .ok fs1 => generate_csv_exports failAt ts
      purchase_df production_df packing_df shipment_df fs1

/-! ## Refresh orchestrator (src/main.py lines 56-87 and 193-198) -/

/-- Embeds `ERPAutomationSystem.fetch_and_process_data` (src/main.py lines
56-87), one refresh cycle: fetch the four datasets in source order (a fetch
error jumps to the `except` block: the error is logged and the function
returns, leaving the store and the disk untouched); on success publish all
four datasets plus `datetime.now()` into `latest_data` inside one
`with data_lock:` block; then write reports (a report error is caught by the
same `except` block and only logged — the store keeps the new snapshot).
Result: the store after the cycle, the disk after the cycle, whether the
reports completed, and whether the `except` block logged an error.  The
function is total: every cycle returns (the `except Exception` handler
swallows the error), so the orchestrator is back at idle afterwards. -/
def fetch_and_process_data
    (fetchPurchase fetchProduction fetchPacking fetchShipment : Except Unit DataFrame)
    (failAt : Option Nat) (ts : String) (now : Nat)
    (store : Store) (fs : FS) : Store × FS × Bool × Bool :=
  match fetchPurchase with
  | .error _ => (store, fs, false, true)
  | .ok p =>
    match fetchProduction with
    | .error _ => (store, fs, false, true)
    | .ok prod =>
      match fetchPacking with
      | .error _ => (store, fs, false, true)
      | .ok pack =>
        match fetchShipment with
        | .error _ => (store, fs, false, true)
        | .ok ship =>
          let store1 : Store :=
            { purchase := some p, production := some prod, packing := some pack
            , shipment := some ship, last_updated := some now }
          match write_reports failAt ts p prod pack ship fs with
          | .ok fs1 => (store1, fs1, true, false)
          | .error fs1 => (store1, fs1, false, true)

/-- Stores reachable from the initial `latest_data` by refresh cycles.
All writers of `latest_data` go through `fetch_and_process_data`, whose
only store mutation is the single `with data_lock:` block; readers
(`get_summary`, `get_department_data`, `health_check`) hold the same lock
and do not write, so each reader observes one element of this relation. -/
inductive Reachable : Store → Prop where
  | init : Reachable latest_data_init
  | step (fetchPurchase fetchProduction fetchPacking fetchShipment :
        Except Unit DataFrame)
      (failAt : Option Nat) (ts : String) (now : Nat) (fs : FS) {s : Store} :
      Reachable s →
      Reachable (fetch_and_process_data fetchPurchase fetchProduction
        fetchPacking fetchShipment failAt ts now s fs).1

/-- Lifecycle counters of the refresh entry points.  `runningCycles` is the
number of `fetch_and_process_data` invocations currently executing;
`fetchInvocations` counts how many times the extractor's fetch interface has
been invoked (each started cycle invokes it once, as its first action). -/
structure OrchState where
  runningCycles : Nat
  fetchInvocations : Nat
deriving DecidableEq

/-- Embeds one refresh trigger: the `POST /api/refresh` handler
`refresh_data` (src/main.py lines 193-198) starts a new thread running
`fetch_and_process_data` unconditionally, and the two scheduled jobs
(lines 92, 95) call the same function directly.  None of the call sites, and
not `fetch_and_process_data` itself, consults any idle/running flag
(`self.running` only gates the scheduler loop), so every trigger starts a
cycle and the cycle's first action invokes the fetch interface. -/
def triggerRefresh (s : OrchState) : OrchState :=
  { runningCycles := s.runningCycles + 1
  , fetchInvocations := s.fetchInvocations + 1 }

/-- A cycle returning: `fetch_and_process_data` always returns (its
`except` block swallows errors). -/
def finishRefresh (s : OrchState) : OrchState :=
  { s with runningCycles := s.runningCycles - 1 }

/-- `n` refresh triggers in sequence. -/
def triggerRefreshN : Nat → OrchState → OrchState
  | 0, s => s
  | n + 1, s => triggerRefreshN n (triggerRefresh s)

/-! ## Retention sweeper (src/ERP_Data_Extractor.py lines 530-553) -/

/-- fnmatch-style glob matching over characters, with the one
metacharacter the source patterns use: a star matches any (possibly empty)
sequence of characters; every other pattern character matches itself. -/
def globMatch : List Char → List Char → Bool
  | [], s => s.isEmpty
  | '*' :: ps, s => (List.range (s.length + 1)).any (fun k => globMatch ps (s.drop k))
  | p :: ps, s =>
    match s with
    | [] => false
    | c :: cs => p == c && globMatch ps cs

/-- A file in the artifact directories, as seen by the retention sweep:
its directory, its name, and its modification time (seconds). -/
structure StoredFile where
  dir : String
  name : String
  mtime : Int
deriving DecidableEq

/-- `Path.rglob` starts at `root` and recurses into subdirectories: a file
is scanned iff its directory is `root` itself or lies below `root`. -/
def underDir (root : String) (f : StoredFile) : Bool :=
  f.dir == root || (root ++ "/").toList.isPrefixOf f.dir.toList

/-- The deletion condition of `cleanup_old_reports` for one file: matched
by `report_dir.rglob('*_*.xlsx')` or by `csv_dir.rglob('*_*.csv')`, with
modification time strictly before `now - days * 86400`. -/
def sweepCondition (days : Nat) (now : Int) (f : StoredFile) : Bool :=
  let cutoff : Int := now - days * 86400
  (underDir "reports" f && globMatch "*_*.xlsx".toList f.name.toList
      && decide (f.mtime < cutoff))
  || (underDir "reports/csv" f && globMatch "*_*.csv".toList f.name.toList
      && decide (f.mtime < cutoff))

/-- Embeds `ReportGenerator.cleanup_old_reports` (src/ERP_Data_Extractor.py
lines 530-553): delete every file matching the two glob scans whose
modification time is older than the cutoff; all other files are untouched. -/
def cleanup_old_reports (days : Nat) (now : Int) (files : List StoredFile) :
    List StoredFile :=
  files.filter (fun f => ! sweepCondition days now f)

/-! ## Sample data (concrete inputs for witnesses and counterexamples) -/

/-- A purchase-schema DataFrame row with a status and an amount. -/
def purchaseRow (s : String) (amt : Rat) : Row :=
  [("status", Value.str s), ("amount", Value.num amt)]

/-- 10 purchase records: 3 Pending, 4 Approved, 3 Delivered; amounts sum to 5000. -/
def purchaseSample : DataFrame :=
  { columns := ["po_id", "status", "amount"]
  , rows :=
    [ purchaseRow "Pending" 500, purchaseRow "Pending" 500, purchaseRow "Pending" 500
    , purchaseRow "Approved" 500, purchaseRow "Approved" 500
    , purchaseRow "Approved" 500, purchaseRow "Approved" 500
    , purchaseRow "Delivered" 500, purchaseRow "Delivered" 500
    , purchaseRow "Delivered" 500 ] }

/-- Zero-record purchase dataset carrying its schema columns. -/
def emptyPurchaseDF : DataFrame :=
  { columns := ["po_id", "vendor_name", "item_name", "quantity", "unit_price"
               , "order_date", "delivery_date", "status", "amount"], rows := [] }

/-- Zero-record production dataset carrying its schema columns. -/
def emptyProductionDF : DataFrame :=
  { columns := ["production_id", "product_name", "batch_no", "quantity", "unit"
               , "start_date", "end_date", "status", "department"], rows := [] }

/-- Zero-record packing dataset carrying its schema columns. -/
def emptyPackingDF : DataFrame :=
  { columns := ["packing_id", "product_name", "quantity", "package_type"
               , "packing_date", "status", "operator"], rows := [] }

/-- Zero-record shipment dataset carrying its schema columns. -/
def emptyShipmentDF : DataFrame :=
  { columns := ["shipment_id", "customer_name", "destination", "quantity"
               , "shipment_date", "expected_delivery", "status", "transporter"], rows := [] }

/-- A store holding one published (empty-dataset) snapshot. -/
def publishedSampleStore : Store :=
  { purchase := some emptyPurchaseDF, production := some emptyProductionDF
  , packing := some emptyPackingDF, shipment := some emptyShipmentDF
  , last_updated := some 0 }

/-- Stale dataset content sitting in the latest CSV files before a cycle. -/
def oldCsvDF : DataFrame := ⟨["status"], [[("status", Value.str "Old")]]⟩

/-- Fresh dataset content produced by a cycle. -/
def newCsvDF : DataFrame := ⟨["status"], [[("status", Value.str "New")]]⟩

/-- A disk holding the four latest CSV files with stale content. -/
def oldLatestFS : FS :=
  [ (csvLatestPath "purchase_data", Artifact.csv oldCsvDF)
  , (csvLatestPath "production_data", Artifact.csv oldCsvDF)
  , (csvLatestPath "packing_data", Artifact.csv oldCsvDF)
  , (csvLatestPath "shipment_data", Artifact.csv oldCsvDF) ]

/-- The workbook produced from four copies of the fresh dataset. -/
def sampleWb : Artifact :=
  Artifact.xlsx newCsvDF newCsvDF newCsvDF newCsvDF
    (create_summary newCsvDF newCsvDF newCsvDF newCsvDF)

/-- The disk left behind when a report-writing pass over `oldLatestFS`
fails at operation 6 (the packing timestamped CSV write): the workbook and
the purchase and production artifacts — timestamped and latest — are
already written; packing and shipment are not. -/
def failedRunFS : FS :=
  (csvLatestPath "production_data", Artifact.csv newCsvDF) ::
  (csvTimestampedPath "production_data" "20240101_120000", Artifact.csv newCsvDF) ::
  (csvLatestPath "purchase_data", Artifact.csv newCsvDF) ::
  (csvTimestampedPath "purchase_data" "20240101_120000", Artifact.csv newCsvDF) ::
  (xlsxLatestPath, sampleWb) ::
  (xlsxTimestampedPath "20240101_120000", sampleWb) :: oldLatestFS

/-! ## Claim statements (the spec claims, formalised over the embedding) -/

/-- Claim C1 as stated: a trigger arriving while a refresh cycle is already
running is dropped — it produces no additional fetch-interface invocation. -/
def atMostOneRefreshClaim : Prop :=
  ∀ (s : OrchState) (n : Nat), 1 ≤ s.runningCycles →
    (triggerRefreshN n s).fetchInvocations ≤ s.fetchInvocations

/-- The four base names of the fixed latest CSV exports. -/
def csvNames : List String :=
  ["purchase_data", "production_data", "packing_data", "shipment_data"]

/-- The closed enumeration of dataset kinds. -/
inductive Kind where
  | purchase
  | production
  | packing
  | shipment
deriving DecidableEq

/-- Position of a kind's row in the Summary sheet built by `create_summary`. -/
def kindIndex : Kind → Nat
  | .purchase => 0
  | .production => 1
  | .packing => 2
  | .shipment => 3

/-- The Summary-sheet row for a kind. -/
def summaryRowFor (p prod pack ship : DataFrame) (k : Kind) : SummaryRow :=
  (create_summary p prod pack ship).getD (kindIndex k) default

/-- Common signature for comparing the two summary call sites (claim C7):
the per-kind aggregates of the spec — record count, status-bucket counts,
and the kind-specific totals — with `none` marking an aggregate a call site
does not compute. -/
structure DeptAggView where
  recordCount : Option Nat
  pendingCount : Option Nat
  completedCount : Option Nat
  inProgressCount : Option Nat
  dispatchedCount : Option Nat
  amountTotal : Option Rat
  quantityTotal : Option Rat
deriving DecidableEq

/-- The aggregates the `/api/summary` payload carries for each kind, read
field by field off `get_summary`. -/
def apiView (a : ApiSummary) : Kind → DeptAggView
  | .purchase =>
    { recordCount := some a.purchase_total_orders
    , pendingCount := some a.purchase_pending
    , completedCount := none, inProgressCount := none, dispatchedCount := none
    , amountTotal := some a.purchase_total_amount, quantityTotal := none }
  | .production =>
    { recordCount := none, pendingCount := none
    , completedCount := some a.production_completed
    , inProgressCount := some a.production_in_progress, dispatchedCount := none
    , amountTotal := none, quantityTotal := some a.production_total_units }
  | .packing =>
    { recordCount := none, pendingCount := none
    , completedCount := some a.packing_completed
    , inProgressCount := none, dispatchedCount := none
    , amountTotal := none, quantityTotal := some a.packing_total_packed }
  | .shipment =>
    { recordCount := some a.shipment_total_shipments
    , pendingCount := some a.shipment_pending
    , completedCount := none, inProgressCount := none
    , dispatchedCount := some a.shipment_dispatched
    , amountTotal := none, quantityTotal := none }

/-- The aggregates a Summary-sheet row carries: record count, Pending and
Completed buckets, and the kind-specific total (monetary for purchase,
quantity otherwise). -/
def sheetView (k : Kind) (r : SummaryRow) : DeptAggView :=
  { recordCount := some r.totalRecords
  , pendingCount := some r.pending
  , completedCount := some r.completed
  , inProgressCount := none, dispatchedCount := none
  , amountTotal := if k = Kind.purchase then r.aggregate else none
  , quantityTotal := if k = Kind.purchase then none else r.aggregate }

/-- Claim C7 as stated: for every published snapshot and every kind, the
live query endpoint and the Summary sheet compute the same aggregates with
the same values (one shared computation). -/
def sharedSummaryClaim : Prop :=
  ∀ (p prod pack ship : DataFrame) (t : Nat) (a : ApiSummary),
    get_summary
      { purchase := some p, production := some prod, packing := some pack
      , shipment := some ship, last_updated := some t } = some a →
    ∀ k : Kind, apiView a k = sheetView k (summaryRowFor p prod pack ship k)

/-- The `/api/summary` payload for the published empty-dataset snapshot:
every count and total is zero. -/
def sampleApiSummary : ApiSummary :=
  { purchase_total_orders := 0, purchase_total_amount := 0, purchase_pending := 0
  , production_total_units := 0, production_completed := 0
  , production_in_progress := 0
  , packing_total_packed := 0, packing_completed := 0
  , shipment_total_shipments := 0, shipment_dispatched := 0
  , shipment_pending := 0, last_updated := 0 }

/-- Claim C3 as stated, failure-atomicity part: an I/O failure anywhere in
a report-writing pass leaves every fixed latest path byte-identical to its
content before the call. -/
def latestPointersAtomicClaim : Prop :=
  ∀ (failAt : Option Nat) (ts : String) (p prod pack ship : DataFrame) (fs fs1 : FS),
    write_reports failAt ts p prod pack ship fs = .error fs1 →
    fs1.lookup xlsxLatestPath = fs.lookup xlsxLatestPath ∧
    ∀ name ∈ csvNames,
      fs1.lookup (csvLatestPath name) = fs.lookup (csvLatestPath name)

end ERP

namespace ERP

/-! ## Helper lemmas -/

/-- Counting a disjunction of two pointwise-exclusive predicates splits. -/
theorem countP_or_disjoint {α : Type} (l : List α) (p q : α → Bool)
    (h : ∀ a, ¬(p a = true ∧ q a = true)) :
    l.countP (fun a => p a || q a) = l.countP p + l.countP q := by
  induction l with
  | nil => simp
  | cons a t ih =>
    cases hp : p a <;> cases hq : q a <;>
      simp [List.countP_cons, hp, hq, ih] <;> try omega
    exact absurd ⟨hp, hq⟩ (h a)

/-- The `isin` count over two distinct statuses is the sum of the two
per-status counts. -/
theorem countStatusIn_pair (df : DataFrame) (s1 s2 : String) (h : s1 ≠ s2) :
    df.countStatusIn [s1, s2] = df.countStatus s1 + df.countStatus s2 := by
  unfold DataFrame.countStatusIn DataFrame.countStatus
  simp only [List.any_cons, List.any_nil, Bool.or_false]
  refine countP_or_disjoint df.rows _ _ ?_
  intro r hc
  rcases hc with ⟨h1, h2⟩
  simp only [decide_eq_true_eq] at h1 h2
  rw [h1] at h2
  exact h (by injection h2 with h3; injection h3)

/-! ## C1 — at-most-one-refresh -/

/-- C1 counterexample: the claim that a trigger arriving during a running
refresh produces no additional fetch is false — starting from one running
cycle (1 fetch invocation so far), one more trigger raises the invocation
count to 2: `refresh_data` spawns a new `fetch_and_process_data` thread
unconditionally, and no idle/running flag exists to drop it. -/
theorem no_refresh_guard_counterexample : ¬ atMostOneRefreshClaim := by
  intro h
  exact absurd (h ⟨1, 1⟩ 1 (by decide)) (by decide)

/-- C1 amended: every refresh trigger — on-demand or scheduled — starts a
new cycle and invokes the external fetch interface once, regardless of how
many cycles are already running: N triggers arriving during a running cycle
produce N additional fetch invocations, not zero. -/
theorem every_trigger_invokes_fetch (s : OrchState) (n : Nat) :
    (triggerRefreshN n s).fetchInvocations = s.fetchInvocations + n ∧
    (triggerRefreshN n s).runningCycles = s.runningCycles + n := by
  induction n generalizing s with
  | zero => simp [triggerRefreshN]
  | succ n ih =>
    have h := ih (triggerRefresh s)
    simp only [triggerRefreshN, triggerRefresh] at h ⊢
    omega

/-! ## C2 — retention sweep deletes latest artifacts -/

/-- C2: evaluating `cleanup_old_reports` at the failing input.  The fixed
latest artifacts `reports/daily_report.xlsx` and
`reports/csv/purchase_data.csv` both contain an underscore in their base
name, so they match the sweep globs `*_*.xlsx` and `*_*.csv`; once their
modification time is older than the cutoff the sweep deletes them, contrary
to the never-delete-latest contract. -/
theorem sweep_deletes_latest_artifacts :
    cleanup_old_reports 30 (100 * 86400)
      [ { dir := "reports", name := "daily_report.xlsx", mtime := 0 }
      , { dir := "reports/csv", name := "purchase_data.csv", mtime := 0 } ] = [] := by
  decide

/-! ## C4 — fetch failure isolation -/

/-- C4: if any of the four fetch operations raises, the cycle leaves the
snapshot store byte-identical to its pre-cycle content, writes no report
file, logs the error, and returns (the orchestrator is idle again). -/
theorem fetch_failure_isolation
    (fetchPurchase fetchProduction fetchPacking fetchShipment : Except Unit DataFrame)
    (failAt : Option Nat) (ts : String) (now : Nat) (store : Store) (fs : FS)
    (h : fetchPurchase = .error () ∨ fetchProduction = .error () ∨
         fetchPacking = .error () ∨ fetchShipment = .error ()) :
    fetch_and_process_data fetchPurchase fetchProduction fetchPacking fetchShipment
      failAt ts now store fs = (store, fs, false, true) := by
  cases fetchPurchase with
  | error e => rfl
  | ok p =>
    cases fetchProduction with
    | error e => rfl
    | ok prod =>
      cases fetchPacking with
      | error e => rfl
      | ok pack =>
        cases fetchShipment with
        | error e => rfl
        | ok ship => rcases h with h | h | h | h <;> exact absurd h (by simp)

/-- C4 witness: a cycle whose purchase fetch fails, run against the initial
store and an empty disk, changes nothing and reports the logged error. -/
theorem fetch_failure_isolation_witness :
    fetch_and_process_data (.error ()) (.ok emptyProductionDF) (.ok emptyPackingDF)
      (.ok emptyShipmentDF) none "20240101_120000" 0 latest_data_init [] =
      (latest_data_init, [], false, true) :=
  fetch_failure_isolation _ _ _ _ _ _ _ _ _ (Or.inl rfl)

/-! ## C6 — report-write failure does not roll back the publish -/

/-- C6: when all four fetches succeed, the snapshot is published, and
report writing then fails, the cycle ends with the newly published snapshot
still in the store, the error logged, and the call returning normally (the
orchestrator is idle again and the process keeps running). -/
theorem report_failure_keeps_snapshot
    (p prod pack ship : DataFrame) (failAt : Option Nat) (ts : String) (now : Nat)
    (store : Store) (fs fs1 : FS)
    (h : write_reports failAt ts p prod pack ship fs = .error fs1) :
    fetch_and_process_data (.ok p) (.ok prod) (.ok pack) (.ok ship)
      failAt ts now store fs =
      ({ purchase := some p, production := some prod, packing := some pack
       , shipment := some ship, last_updated := some now }, fs1, false, true) := by
  simp [fetch_and_process_data, h]

/-- C6 witness: a cycle whose very first report write fails (operation 0)
still ends with the fresh snapshot published. -/
theorem report_failure_keeps_snapshot_witness :
    fetch_and_process_data (.ok emptyPurchaseDF) (.ok emptyProductionDF)
      (.ok emptyPackingDF) (.ok emptyShipmentDF) (some 0) "20240101_120000" 7
      latest_data_init [] =
      ({ purchase := some emptyPurchaseDF, production := some emptyProductionDF
       , packing := some emptyPackingDF, shipment := some emptyShipmentDF
       , last_updated := some 7 }, [], false, true) :=
  report_failure_keeps_snapshot _ _ _ _ _ _ _ _ _ _ rfl

/-! ## C8 — summary correctness for purchase -/

/-- C8: for a purchase dataset of 10 records with statuses
3 Pending / 4 Approved / 3 Delivered and amounts summing to 5000, the
Summary-sheet purchase row reports Total Records 10, Pending 3,
Completed 7 (Approved and Delivered together), and Total Value 5000. -/
theorem summary_correctness_purchase
    (df d2 d3 d4 : DataFrame)
    (hlen : df.len = 10)
    (hpend : df.countStatus "Pending" = 3)
    (happr : df.countStatus "Approved" = 4)
    (hdel : df.countStatus "Delivered" = 3)
    (hcol : "amount" ∈ df.columns)
    (hsum : df.sumCol "amount" = 5000) :
    ((create_summary df d2 d3 d4).headD default).totalRecords = 10 ∧
    ((create_summary df d2 d3 d4).headD default).pending = 3 ∧
    ((create_summary df d2 d3 d4).headD default).completed = 7 ∧
    ((create_summary df d2 d3 d4).headD default).aggregate = some 5000 := by
  have hc := countStatusIn_pair df "Approved" "Delivered" (by decide)
  simp [create_summary, hlen, hpend, hc, happr, hdel, hcol, hsum]

/-- C8 witness: the concrete 10-record purchase dataset. -/
theorem summary_correctness_purchase_witness :
    ((create_summary purchaseSample emptyProductionDF emptyPackingDF
        emptyShipmentDF).headD default).totalRecords = 10 ∧
    ((create_summary purchaseSample emptyProductionDF emptyPackingDF
        emptyShipmentDF).headD default).pending = 3 ∧
    ((create_summary purchaseSample emptyProductionDF emptyPackingDF
        emptyShipmentDF).headD default).completed = 7 ∧
    ((create_summary purchaseSample emptyProductionDF emptyPackingDF
        emptyShipmentDF).headD default).aggregate = some 5000 :=
  summary_correctness_purchase purchaseSample emptyProductionDF emptyPackingDF
    emptyShipmentDF (by decide) (by decide) (by decide) (by decide) (by decide)
    (by
      have hl : ∀ s amt, ((purchaseRow s amt).lookup "amount") = some (Value.num amt) :=
        fun s amt => rfl
      norm_num [purchaseSample, DataFrame.sumCol, Value.toRat, hl])

/-! ## C9 — empty dataset edge case -/

/-- C9: on zero-record datasets (schema columns present, no rows) the
summary computation totally succeeds and reports every count zero and a
zero aggregate for every dataset kind. -/
theorem empty_dataset_summary
    (p prod pack ship : DataFrame)
    (hp : p.rows = []) (hprod : prod.rows = [])
    (hpack : pack.rows = []) (hship : ship.rows = [])
    (hac : "amount" ∈ p.columns)
    (hqc1 : "quantity" ∈ prod.columns) (hqc2 : "quantity" ∈ pack.columns)
    (hqc3 : "quantity" ∈ ship.columns) :
    create_summary p prod pack ship =
      [ { department := "Purchase", totalRecords := 0, pending := 0, completed := 0
        , aggregateLabel := "Total Value", aggregate := some 0 }
      , { department := "Production", totalRecords := 0, pending := 0, completed := 0
        , aggregateLabel := "Total Quantity", aggregate := some 0 }
      , { department := "Packing", totalRecords := 0, pending := 0, completed := 0
        , aggregateLabel := "Total Packed", aggregate := some 0 }
      , { department := "Shipment", totalRecords := 0, pending := 0, completed := 0
        , aggregateLabel := "Total Shipped", aggregate := some 0 } ] := by
  simp [create_summary, DataFrame.len, DataFrame.countStatus, DataFrame.countStatusIn,
    DataFrame.sumCol, hp, hprod, hpack, hship, hac, hqc1, hqc2, hqc3]

/-- C9 witness: the four concrete zero-record schema datasets. -/
theorem empty_dataset_summary_witness :
    create_summary emptyPurchaseDF emptyProductionDF emptyPackingDF emptyShipmentDF =
      [ { department := "Purchase", totalRecords := 0, pending := 0, completed := 0
        , aggregateLabel := "Total Value", aggregate := some 0 }
      , { department := "Production", totalRecords := 0, pending := 0, completed := 0
        , aggregateLabel := "Total Quantity", aggregate := some 0 }
      , { department := "Packing", totalRecords := 0, pending := 0, completed := 0
        , aggregateLabel := "Total Packed", aggregate := some 0 }
      , { department := "Shipment", totalRecords := 0, pending := 0, completed := 0
        , aggregateLabel := "Total Shipped", aggregate := some 0 } ] :=
  empty_dataset_summary emptyPurchaseDF emptyProductionDF emptyPackingDF
    emptyShipmentDF rfl rfl rfl rfl (by decide) (by decide) (by decide) (by decide)

/-! ## C5 — snapshot all-or-none invariant / atomic publish -/

/-- C5: in every reachable store state, either nothing has been published
(all four datasets and the timestamp are the initial no-data values), or
all four datasets and the timestamp were set together by the single
`with data_lock:` publish block of one refresh cycle.  Readers
(`get_summary`, `get_department_data`, `health_check`) take the same lock,
so each read observes one state of this relation — the four datasets of a
single publish, never a mix of two publishes. -/
theorem snapshot_all_or_none (s : Store) (h : Reachable s) :
    s = latest_data_init ∨
    ∃ p prod pack ship t, s =
      { purchase := some p, production := some prod, packing := some pack
      , shipment := some ship, last_updated := some t } := by
  induction h with
  | init => exact Or.inl rfl
  | step fp fprod fpack fship failAt ts now fs hr ih =>
    cases fp with
    | error e => simpa [fetch_and_process_data] using ih
    | ok p =>
      cases fprod with
      | error e => simpa [fetch_and_process_data] using ih
      | ok prod =>
        cases fpack with
        | error e => simpa [fetch_and_process_data] using ih
        | ok pack =>
          cases fship with
          | error e => simpa [fetch_and_process_data] using ih
          | ok ship =>
            cases hw : write_reports failAt ts p prod pack ship fs with
            | ok fs1 =>
              exact Or.inr ⟨p, prod, pack, ship, now,
                by simp [fetch_and_process_data, hw]⟩
            | error fs1 =>
              exact Or.inr ⟨p, prod, pack, ship, now,
                by simp [fetch_and_process_data, hw]⟩

/-- C5 witness: the store after one successful refresh cycle from the
initial state is reachable and satisfies the invariant. -/
theorem snapshot_all_or_none_witness :
    (fetch_and_process_data (.ok emptyPurchaseDF) (.ok emptyProductionDF)
        (.ok emptyPackingDF) (.ok emptyShipmentDF) none "20240101_120000" 3
        latest_data_init []).1 = latest_data_init ∨
    ∃ p prod pack ship t,
      (fetch_and_process_data (.ok emptyPurchaseDF) (.ok emptyProductionDF)
          (.ok emptyPackingDF) (.ok emptyShipmentDF) none "20240101_120000" 3
          latest_data_init []).1 =
        { purchase := some p, production := some prod, packing := some pack
        , shipment := some ship, last_updated := some t } :=
  snapshot_all_or_none _
    (Reachable.step (.ok emptyPurchaseDF) (.ok emptyProductionDF)
      (.ok emptyPackingDF) (.ok emptyShipmentDF) none "20240101_120000" 3 []
      Reachable.init)

/-! ## C10 — invalid-kind handling at the department endpoint -/

/-- C10: the department read never mutates the store; before the first
publish it answers 404 No-data for every department name (the no-data check
runs first); after a publish it answers 400 Invalid-department for every
name outside the four dataset kinds. -/
theorem department_read_errors (s : Store) (dept_name : String) :
    (get_department_data s dept_name).2 = s ∧
    (s.last_updated = none →
      (get_department_data s dept_name).1 = DeptResponse.noData) ∧
    (s.last_updated ≠ none →
      dept_name ∉ ["purchase", "production", "packing", "shipment"] →
      (get_department_data s dept_name).1 = DeptResponse.invalidDepartment) := by
  refine ⟨?_, ?_, ?_⟩
  · unfold get_department_data
    split
    · rfl
    · split <;> rfl
  · intro h
    simp [get_department_data, h]
  · intro h hno
    simp only [List.mem_cons, not_or] at hno
    obtain ⟨h1, h2, h3, h4, -⟩ := hno
    have b1 : (dept_name == "purchase") = false := beq_eq_false_iff_ne.mpr h1
    have b2 : (dept_name == "production") = false := beq_eq_false_iff_ne.mpr h2
    have b3 : (dept_name == "packing") = false := beq_eq_false_iff_ne.mpr h3
    have b4 : (dept_name == "shipment") = false := beq_eq_false_iff_ne.mpr h4
    simp [get_department_data, h, data_map, List.lookup, b1, b2, b3, b4]

/-- C10 witness: an unknown department name gets 400 after a publish and
404 before the first publish. -/
theorem department_read_errors_witness :
    (get_department_data publishedSampleStore "hr").1 =
      DeptResponse.invalidDepartment ∧
    (get_department_data latest_data_init "hr").1 = DeptResponse.noData :=
  ⟨(department_read_errors publishedSampleStore "hr").2.2 (by decide) (by decide),
   (department_read_errors latest_data_init "hr").2.1 rfl⟩

/-! ## C7 — shared summary computation -/

/-- C7 counterexample: the two summary call sites are separate computations
that do not compute the same aggregate set.  At the published empty-dataset
snapshot, for the production kind, `/api/summary` carries no record count
and no Pending bucket but carries an In-Progress bucket, while the Summary
sheet carries record count, Pending and Completed but no In-Progress — so
the views differ and the claim is false. -/
theorem summary_not_shared : ¬ sharedSummaryClaim := by
  intro h
  exact absurd
    (h emptyPurchaseDF emptyProductionDF emptyPackingDF emptyShipmentDF 0
      sampleApiSummary (by decide) Kind.production)
    (by decide)

/-- C7 amended: the two call sites are independent computations, but every
aggregate both of them compute agrees: purchase record count, purchase
Pending bucket, purchase amount total, production Completed bucket,
production quantity total, packing Completed bucket, packing quantity
total, shipment record count, and shipment Pending bucket. -/
theorem overlapping_summary_aggregates_agree
    (p prod pack ship : DataFrame) (t : Nat) (a : ApiSummary)
    (h : get_summary
      { purchase := some p, production := some prod, packing := some pack
      , shipment := some ship, last_updated := some t } = some a)
    (hac : "amount" ∈ p.columns)
    (hq1 : "quantity" ∈ prod.columns) (hq2 : "quantity" ∈ pack.columns) :
    a.purchase_total_orders =
      (summaryRowFor p prod pack ship Kind.purchase).totalRecords ∧
    a.purchase_pending = (summaryRowFor p prod pack ship Kind.purchase).pending ∧
    some a.purchase_total_amount =
      (summaryRowFor p prod pack ship Kind.purchase).aggregate ∧
    a.production_completed =
      (summaryRowFor p prod pack ship Kind.production).completed ∧
    some a.production_total_units =
      (summaryRowFor p prod pack ship Kind.production).aggregate ∧
    a.packing_completed =
      (summaryRowFor p prod pack ship Kind.packing).completed ∧
    some a.packing_total_packed =
      (summaryRowFor p prod pack ship Kind.packing).aggregate ∧
    a.shipment_total_shipments =
      (summaryRowFor p prod pack ship Kind.shipment).totalRecords ∧
    a.shipment_pending = (summaryRowFor p prod pack ship Kind.shipment).pending := by
  simp only [get_summary, Option.some.injEq] at h
  subst h
  simp [summaryRowFor, create_summary, kindIndex, hac, hq1, hq2]

/-- C7 amended witness: the published empty-dataset snapshot. -/
theorem overlapping_summary_aggregates_agree_witness :
    sampleApiSummary.purchase_total_orders =
      (summaryRowFor emptyPurchaseDF emptyProductionDF emptyPackingDF
        emptyShipmentDF Kind.purchase).totalRecords ∧
    sampleApiSummary.purchase_pending =
      (summaryRowFor emptyPurchaseDF emptyProductionDF emptyPackingDF
        emptyShipmentDF Kind.purchase).pending ∧
    some sampleApiSummary.purchase_total_amount =
      (summaryRowFor emptyPurchaseDF emptyProductionDF emptyPackingDF
        emptyShipmentDF Kind.purchase).aggregate ∧
    sampleApiSummary.production_completed =
      (summaryRowFor emptyPurchaseDF emptyProductionDF emptyPackingDF
        emptyShipmentDF Kind.production).completed ∧
    some sampleApiSummary.production_total_units =
      (summaryRowFor emptyPurchaseDF emptyProductionDF emptyPackingDF
        emptyShipmentDF Kind.production).aggregate ∧
    sampleApiSummary.packing_completed =
      (summaryRowFor emptyPurchaseDF emptyProductionDF emptyPackingDF
        emptyShipmentDF Kind.packing).completed ∧
    some sampleApiSummary.packing_total_packed =
      (summaryRowFor emptyPurchaseDF emptyProductionDF emptyPackingDF
        emptyShipmentDF Kind.packing).aggregate ∧
    sampleApiSummary.shipment_total_shipments =
      (summaryRowFor emptyPurchaseDF emptyProductionDF emptyPackingDF
        emptyShipmentDF Kind.shipment).totalRecords ∧
    sampleApiSummary.shipment_pending =
      (summaryRowFor emptyPurchaseDF emptyProductionDF emptyPackingDF
        emptyShipmentDF Kind.shipment).pending :=
  overlapping_summary_aggregates_agree emptyPurchaseDF emptyProductionDF
    emptyPackingDF emptyShipmentDF 0 sampleApiSummary (by decide) (by decide)
    (by decide) (by decide)

/-! ## C3 — report-writer file operations: helper lemmas -/

/-- Reading back a just-written path yields the written content. -/
theorem lookup_setFile_eq (fs : FS) (p : FilePath) (a : Artifact) :
    (setFile fs p a).lookup p = some a := by
  simp [setFile, List.lookup]

/-- Writing one path leaves every other path's content unchanged. -/
theorem lookup_setFile_ne (fs : FS) (p q : FilePath) (a : Artifact) (h : q ≠ p) :
    (setFile fs p a).lookup q = fs.lookup q := by
  have b : (q == p) = false := beq_eq_false_iff_ne.mpr h
  simp [setFile, List.lookup, b]

/-- A failing file operation leaves the disk unchanged and is the
injected-failure operation. -/
theorem writeOp_error_inv (failAt : Option Nat) (idx : Nat) (p : FilePath)
    (a : Artifact) (fs e : FS) (h : writeOp failAt idx p a fs = .error e) :
    e = fs ∧ failAt = some idx := by
  unfold writeOp at h
  split at h
  · refine ⟨?_, by assumption⟩
    injection h with h2
    exact h2.symm
  · exact absurd h (by simp)

/-- A succeeding file operation writes exactly its content at its path. -/
theorem writeOp_ok_inv (failAt : Option Nat) (idx : Nat) (p : FilePath)
    (a : Artifact) (fs fs2 : FS) (h : writeOp failAt idx p a fs = .ok fs2) :
    fs2 = setFile fs p a := by
  unfold writeOp at h
  split at h
  · exact absurd h (by simp)
  · injection h with h2
    exact h2.symm

theorem length_csvLatestPath (n : String) :
    (csvLatestPath n).length = 16 + n.length := by
  have h1 : ("reports/csv/" : String).length = 12 := rfl
  have h2 : ((".csv" : String)).length = 4 := rfl
  simp only [csvLatestPath, String.length_append, h1, h2]
  omega

theorem length_csvTimestampedPath (n ts : String) :
    (csvTimestampedPath n ts).length = 17 + n.length + ts.length := by
  have h1 : ("reports/csv/" : String).length = 12 := rfl
  have h2 : (("_" : String)).length = 1 := rfl
  have h3 : ((".csv" : String)).length = 4 := rfl
  simp only [csvTimestampedPath, String.length_append, h1, h2, h3]
  omega

theorem length_xlsxTimestampedPath (ts : String) :
    (xlsxTimestampedPath ts).length = 26 + ts.length := by
  have h1 : ("reports/daily_report_" : String).length = 21 := rfl
  have h2 : ((".xlsx" : String)).length = 5 := rfl
  simp only [xlsxTimestampedPath, String.length_append, h1, h2]
  omega

/-- A latest CSV path never collides with a timestamped CSV path: the
timestamp (15 characters in the source's `%Y%m%d_%H%M%S` format) makes the
timestamped path strictly longer. -/
theorem csvLatestPath_ne_csvTimestampedPath (n1 n2 ts : String)
    (h1 : n1.length ≤ 15) (hts : ts.length = 15) :
    csvLatestPath n1 ≠ csvTimestampedPath n2 ts := by
  intro he
  have hl := congrArg String.length he
  rw [length_csvLatestPath, length_csvTimestampedPath] at hl
  omega

/-- A latest CSV path never collides with the timestamped workbook path. -/
theorem csvLatestPath_ne_xlsxTimestampedPath (n ts : String)
    (h1 : n.length ≤ 15) (hts : ts.length = 15) :
    csvLatestPath n ≠ xlsxTimestampedPath ts := by
  intro he
  have hl := congrArg String.length he
  rw [length_csvLatestPath, length_xlsxTimestampedPath] at hl
  omega

/-- The latest workbook path never collides with a timestamped workbook path. -/
theorem xlsxLatestPath_ne_xlsxTimestampedPath (ts : String) :
    xlsxLatestPath ≠ xlsxTimestampedPath ts := by
  intro he
  have hl := congrArg String.length he
  rw [show (xlsxLatestPath).length = 25 from rfl, length_xlsxTimestampedPath] at hl
  omega

/-- The latest workbook path never collides with a timestamped CSV path. -/
theorem xlsxLatestPath_ne_csvTimestampedPath (n ts : String)
    (hts : ts.length = 15) :
    xlsxLatestPath ≠ csvTimestampedPath n ts := by
  intro he
  have hl := congrArg String.length he
  rw [show (xlsxLatestPath).length = 25 from rfl, length_csvTimestampedPath] at hl
  omega

/-- Latest CSV paths of distinct base names are distinct. -/
theorem csvLatestPath_injective (n1 n2 : String)
    (h : csvLatestPath n1 = csvLatestPath n2) : n1 = n2 := by
  have hd := congrArg String.data h
  simp only [csvLatestPath, String.data_append] at hd
  have h1 : n1.data = n2.data :=
    List.append_cancel_left (List.append_cancel_right hd)
  cases n1
  cases n2
  exact congrArg String.mk h1

/-- Frame property of the CSV export loop: when the loop aborts with an
error, every path on the resulting disk either kept the content it had when
the loop started, or holds the freshly serialized dataset of one of the
loop's artifacts (at that artifact's timestamped or latest path). -/
theorem csvExportLoop_error_frame (failAt : Option Nat) (ts : String)
    (l : List (String × DataFrame)) :
    ∀ (idx : Nat) (fs fs1 : FS),
      csvExportLoop failAt ts idx l fs = .error fs1 →
      ∀ path : FilePath,
        fs1.lookup path = fs.lookup path ∨
        ∃ pr ∈ l,
          (path = csvTimestampedPath pr.1 ts ∨ path = csvLatestPath pr.1) ∧
          fs1.lookup path = some (Artifact.csv pr.2) := by
  induction l with
  | nil =>
    intro idx fs fs1 h path
    simp [csvExportLoop] at h
  | cons hd tl ih =>
    intro idx fs fs1 h path
    obtain ⟨name, df⟩ := hd
    cases hw1 : writeOp failAt idx (csvTimestampedPath name ts)
        (Artifact.csv df) fs with
    | error e =>
      simp only [csvExportLoop, hw1] at h
      injection h with h2
      obtain ⟨he, -⟩ := writeOp_error_inv _ _ _ _ _ _ hw1
      left
      rw [← h2, he]
    | ok fsA =>
      have hA : fsA = setFile fs (csvTimestampedPath name ts) (Artifact.csv df) :=
        writeOp_ok_inv _ _ _ _ _ _ hw1
      cases hw2 : writeOp failAt (idx + 1) (csvLatestPath name)
          (Artifact.csv df) fsA with
      | error e2 =>
        simp only [csvExportLoop, hw1, hw2] at h
        injection h with h2
        obtain ⟨he2, -⟩ := writeOp_error_inv _ _ _ _ _ _ hw2
        by_cases hp : path = csvTimestampedPath name ts
        · right
          refine ⟨(name, df), List.mem_cons_self _ _, Or.inl hp, ?_⟩
          rw [← h2, he2, hA, hp]
          exact lookup_setFile_eq _ _ _
        · left
          rw [← h2, he2, hA]
          exact lookup_setFile_ne _ _ _ _ hp
      | ok fsB =>
        have hB : fsB = setFile fsA (csvLatestPath name) (Artifact.csv df) :=
          writeOp_ok_inv _ _ _ _ _ _ hw2
        simp only [csvExportLoop, hw1, hw2] at h
        rcases ih (idx + 2) fsB fs1 h path with heq | ⟨pr, hmem, hor, hcont⟩
        · by_cases hp1 : path = csvLatestPath name
          · right
            refine ⟨(name, df), List.mem_cons_self _ _, Or.inr hp1, ?_⟩
            rw [heq, hB, hp1]
            exact lookup_setFile_eq _ _ _
          · by_cases hp2 : path = csvTimestampedPath name ts
            · right
              refine ⟨(name, df), List.mem_cons_self _ _, Or.inl hp2, ?_⟩
              rw [heq, hB, lookup_setFile_ne _ _ _ _ hp1, hA, hp2]
              exact lookup_setFile_eq _ _ _
            · left
              rw [heq, hB, lookup_setFile_ne _ _ _ _ hp1, hA,
                lookup_setFile_ne _ _ _ _ hp2]
        · right
          exact ⟨pr, List.mem_cons_of_mem _ hmem, hor, hcont⟩

/-- Picking the right artifact out of the frame disjunct for a fixed latest
CSV path: a latest path can only have been written by its own artifact. -/
theorem frame_pick (l : List (String × DataFrame)) (ts : String) (fs1 : FS)
    (name : String) (df : DataFrame)
    (hname : name.length ≤ 15) (hts : ts.length = 15)
    (huniq : ∀ pr ∈ l, pr.1 = name → pr.2 = df)
    (hframe : ∃ pr ∈ l,
      (csvLatestPath name = csvTimestampedPath pr.1 ts ∨
        csvLatestPath name = csvLatestPath pr.1) ∧
      fs1.lookup (csvLatestPath name) = some (Artifact.csv pr.2)) :
    fs1.lookup (csvLatestPath name) = some (Artifact.csv df) := by
  obtain ⟨pr, hmem, hor, hcont⟩ := hframe
  rcases hor with hor | hor
  · exact absurd hor (csvLatestPath_ne_csvTimestampedPath _ _ _ hname hts)
  · rw [huniq pr hmem (csvLatestPath_injective _ _ hor.symm)] at hcont
    exact hcont

/-! ## C3 — latest pointers are not updated atomically -/

/-- C3 counterexample: with an I/O failure injected at operation 6 (the
packing timestamped CSV write) and stale latest files on disk, the failed
pass leaves `reports/csv/purchase_data.csv` holding the fresh dataset while
packing and shipment keep the stale one — the latest pointers were partially
updated, refuting the all-or-nothing failure policy. -/
theorem latest_pointers_not_atomic : ¬ latestPointersAtomicClaim := by
  intro h
  have h2 := (h (some 6) "20240101_120000" newCsvDF newCsvDF newCsvDF newCsvDF
    oldLatestFS failedRunFS rfl).2 "purchase_data" (by decide)
  exact absurd h2 (by decide)

/-- C3 amended: the writer updates latest files per artifact, in operation
order (workbook timestamped, workbook latest by copy, then per CSV:
timestamped, then latest by a second serialization); an I/O failure aborts
the pass at the failing operation, so afterwards each fixed latest path
holds either its pre-call content or the new content of its own artifact —
artifacts completed before the failure are updated, later ones are not. -/
theorem write_reports_failure_latest_per_artifact
    (failAt : Option Nat) (ts : String) (p prod pack ship : DataFrame)
    (fs fs1 : FS) (hts : ts.length = 15)
    (h : write_reports failAt ts p prod pack ship fs = .error fs1) :
    (fs1.lookup xlsxLatestPath = fs.lookup xlsxLatestPath ∨
      fs1.lookup xlsxLatestPath =
        some (Artifact.xlsx p prod pack ship (create_summary p prod pack ship))) ∧
    (fs1.lookup (csvLatestPath "purchase_data") =
        fs.lookup (csvLatestPath "purchase_data") ∨
      fs1.lookup (csvLatestPath "purchase_data") = some (Artifact.csv p)) ∧
    (fs1.lookup (csvLatestPath "production_data") =
        fs.lookup (csvLatestPath "production_data") ∨
      fs1.lookup (csvLatestPath "production_data") = some (Artifact.csv prod)) ∧
    (fs1.lookup (csvLatestPath "packing_data") =
        fs.lookup (csvLatestPath "packing_data") ∨
      fs1.lookup (csvLatestPath "packing_data") = some (Artifact.csv pack)) ∧
    (fs1.lookup (csvLatestPath "shipment_data") =
        fs.lookup (csvLatestPath "shipment_data") ∨
      fs1.lookup (csvLatestPath "shipment_data") = some (Artifact.csv ship)) := by
  cases hge : generate_excel_reports failAt ts p prod pack ship fs with
  | error e =>
    simp only [write_reports, hge] at h
    injection h with h2
    simp only [generate_excel_reports] at hge
    cases hw0 : writeOp failAt 0 (xlsxTimestampedPath ts)
        (Artifact.xlsx p prod pack ship (create_summary p prod pack ship)) fs with
    | error e0 =>
      simp only [hw0] at hge
      injection hge with h3
      obtain ⟨he0, -⟩ := writeOp_error_inv _ _ _ _ _ _ hw0
      rw [← h2, ← h3, he0]
      exact ⟨Or.inl rfl, Or.inl rfl, Or.inl rfl, Or.inl rfl, Or.inl rfl⟩
    | ok fsA =>
      have hA : fsA = setFile fs (xlsxTimestampedPath ts)
          (Artifact.xlsx p prod pack ship (create_summary p prod pack ship)) :=
        writeOp_ok_inv _ _ _ _ _ _ hw0
      simp only [hw0, hA, lookup_setFile_eq] at hge
      obtain ⟨he1, -⟩ := writeOp_error_inv _ _ _ _ _ _ hge
      rw [← h2, he1]
      refine ⟨Or.inl ?_, Or.inl ?_, Or.inl ?_, Or.inl ?_, Or.inl ?_⟩
      · exact lookup_setFile_ne _ _ _ _ (xlsxLatestPath_ne_xlsxTimestampedPath ts)
      · exact lookup_setFile_ne _ _ _ _
          (csvLatestPath_ne_xlsxTimestampedPath _ _ (by decide) hts)
      · exact lookup_setFile_ne _ _ _ _
          (csvLatestPath_ne_xlsxTimestampedPath _ _ (by decide) hts)
      · exact lookup_setFile_ne _ _ _ _
          (csvLatestPath_ne_xlsxTimestampedPath _ _ (by decide) hts)
      · exact lookup_setFile_ne _ _ _ _
          (csvLatestPath_ne_xlsxTimestampedPath _ _ (by decide) hts)
  | ok fsE =>
    simp only [write_reports, hge] at h
    have hE : fsE = setFile
        (setFile fs (xlsxTimestampedPath ts)
          (Artifact.xlsx p prod pack ship (create_summary p prod pack ship)))
        xlsxLatestPath
        (Artifact.xlsx p prod pack ship (create_summary p prod pack ship)) := by
      simp only [generate_excel_reports] at hge
      cases hw0 : writeOp failAt 0 (xlsxTimestampedPath ts)
          (Artifact.xlsx p prod pack ship (create_summary p prod pack ship)) fs with
      | error e0 =>
        rw [hw0] at hge
        exact absurd hge (by simp)
      | ok fsA =>
        have hA : fsA = setFile fs (xlsxTimestampedPath ts)
            (Artifact.xlsx p prod pack ship (create_summary p prod pack ship)) :=
          writeOp_ok_inv _ _ _ _ _ _ hw0
        simp only [hw0, hA, lookup_setFile_eq] at hge
        exact writeOp_ok_inv _ _ _ _ _ _ hge
    subst hE
    simp only [generate_csv_exports] at h
    have frame := csvExportLoop_error_frame failAt ts
      (csvDatasets p prod pack ship) 2 _ fs1 h
    refine ⟨?_, ?_, ?_, ?_, ?_⟩
    · rcases frame xlsxLatestPath with heq | ⟨pr, hmem, hor, hcont⟩
      · right
        rw [heq]
        exact lookup_setFile_eq _ _ _
      · exfalso
        simp only [csvDatasets, List.mem_cons, List.not_mem_nil, or_false] at hmem
        rcases hmem with rfl | rfl | rfl | rfl <;>
          rcases hor with hor | hor <;>
          first
            | exact xlsxLatestPath_ne_csvTimestampedPath _ _ hts hor
            | exact absurd hor
                (by decide : ¬(xlsxLatestPath = csvLatestPath "purchase_data"))
            | exact absurd hor
                (by decide : ¬(xlsxLatestPath = csvLatestPath "production_data"))
            | exact absurd hor
                (by decide : ¬(xlsxLatestPath = csvLatestPath "packing_data"))
            | exact absurd hor
                (by decide : ¬(xlsxLatestPath = csvLatestPath "shipment_data"))
    · rcases frame (csvLatestPath "purchase_data") with heq | hframe
      · left
        rw [heq,
          lookup_setFile_ne _ _ _ _
            (by decide : csvLatestPath "purchase_data" ≠ xlsxLatestPath),
          lookup_setFile_ne _ _ _ _
            (csvLatestPath_ne_xlsxTimestampedPath _ _ (by decide) hts)]
      · right
        refine frame_pick _ ts fs1 _ p (by decide) hts ?_ hframe
        intro pr hmem hname
        simp only [csvDatasets, List.mem_cons, List.not_mem_nil, or_false] at hmem
        rcases hmem with rfl | rfl | rfl | rfl
        · rfl
        · exact absurd hname
            (by decide : ¬(("production_data" : String) = "purchase_data"))
        · exact absurd hname
            (by decide : ¬(("packing_data" : String) = "purchase_data"))
        · exact absurd hname
            (by decide : ¬(("shipment_data" : String) = "purchase_data"))
    · rcases frame (csvLatestPath "production_data") with heq | hframe
      · left
        rw [heq,
          lookup_setFile_ne _ _ _ _
            (by decide : csvLatestPath "production_data" ≠ xlsxLatestPath),
          lookup_setFile_ne _ _ _ _
            (csvLatestPath_ne_xlsxTimestampedPath _ _ (by decide) hts)]
      · right
        refine frame_pick _ ts fs1 _ prod (by decide) hts ?_ hframe
        intro pr hmem hname
        simp only [csvDatasets, List.mem_cons, List.not_mem_nil, or_false] at hmem
        rcases hmem with rfl | rfl | rfl | rfl
        · exact absurd hname
            (by decide : ¬(("purchase_data" : String) = "production_data"))
        · rfl
        · exact absurd hname
            (by decide : ¬(("packing_data" : String) = "production_data"))
        · exact absurd hname
            (by decide : ¬(("shipment_data" : String) = "production_data"))
    · rcases frame (csvLatestPath "packing_data") with heq | hframe
      · left
        rw [heq,
          lookup_setFile_ne _ _ _ _
            (by decide : csvLatestPath "packing_data" ≠ xlsxLatestPath),
          lookup_setFile_ne _ _ _ _
            (csvLatestPath_ne_xlsxTimestampedPath _ _ (by decide) hts)]
      · right
        refine frame_pick _ ts fs1 _ pack (by decide) hts ?_ hframe
        intro pr hmem hname
        simp only [csvDatasets, List.mem_cons, List.not_mem_nil, or_false] at hmem
        rcases hmem with rfl | rfl | rfl | rfl
        · exact absurd hname
            (by decide : ¬(("purchase_data" : String) = "packing_data"))
        · exact absurd hname
            (by decide : ¬(("production_data" : String) = "packing_data"))
        · rfl
        · exact absurd hname
            (by decide : ¬(("shipment_data" : String) = "packing_data"))
    · rcases frame (csvLatestPath "shipment_data") with heq | hframe
      · left
        rw [heq,
          lookup_setFile_ne _ _ _ _
            (by decide : csvLatestPath "shipment_data" ≠ xlsxLatestPath),
          lookup_setFile_ne _ _ _ _
            (csvLatestPath_ne_xlsxTimestampedPath _ _ (by decide) hts)]
      · right
        refine frame_pick _ ts fs1 _ ship (by decide) hts ?_ hframe
        intro pr hmem hname
        simp only [csvDatasets, List.mem_cons, List.not_mem_nil, or_false] at hmem
        rcases hmem with rfl | rfl | rfl | rfl
        · exact absurd hname
            (by decide : ¬(("purchase_data" : String) = "shipment_data"))
        · exact absurd hname
            (by decide : ¬(("production_data" : String) = "shipment_data"))
        · exact absurd hname
            (by decide : ¬(("packing_data" : String) = "shipment_data"))
        · rfl

/-- C3 amended witness: the pass failing at operation 6 over the stale
latest files. -/
theorem write_reports_failure_latest_per_artifact_witness :
    (failedRunFS.lookup xlsxLatestPath = oldLatestFS.lookup xlsxLatestPath ∨
      failedRunFS.lookup xlsxLatestPath =
        some (Artifact.xlsx newCsvDF newCsvDF newCsvDF newCsvDF
          (create_summary newCsvDF newCsvDF newCsvDF newCsvDF))) ∧
    (failedRunFS.lookup (csvLatestPath "purchase_data") =
        oldLatestFS.lookup (csvLatestPath "purchase_data") ∨
      failedRunFS.lookup (csvLatestPath "purchase_data") =
        some (Artifact.csv newCsvDF)) ∧
    (failedRunFS.lookup (csvLatestPath "production_data") =
        oldLatestFS.lookup (csvLatestPath "production_data") ∨
      failedRunFS.lookup (csvLatestPath "production_data") =
        some (Artifact.csv newCsvDF)) ∧
    (failedRunFS.lookup (csvLatestPath "packing_data") =
        oldLatestFS.lookup (csvLatestPath "packing_data") ∨
      failedRunFS.lookup (csvLatestPath "packing_data") =
        some (Artifact.csv newCsvDF)) ∧
    (failedRunFS.lookup (csvLatestPath "shipment_data") =
        oldLatestFS.lookup (csvLatestPath "shipment_data") ∨
      failedRunFS.lookup (csvLatestPath "shipment_data") =
        some (Artifact.csv newCsvDF)) :=
  write_reports_failure_latest_per_artifact (some 6) "20240101_120000"
    newCsvDF newCsvDF newCsvDF newCsvDF oldLatestFS failedRunFS rfl rfl

end ERP
